import Mathlib

/-!
Shallow embedding of `pid_demo.py` (class `PIDResponseGraph`), with the
exact arithmetic of the source modelled over `ℚ`.

The embedded pieces are:
* `simulate_pid_response` — the simulation engine (source lines 82-111),
  acting on the mutable instance state of the class (`ObjState`) and
  returning the updated state, or `none` where the Python call raises
  (`np.arange` with step `0` raises `ZeroDivisionError`);
* `on_time_change_idx` — the sample-index computation of `_on_time_change`
  (source lines 185-190); it reads `t[1] - t[0]`, so a trace with fewer
  than two samples raises `IndexError`, modelled as `none`;
* `togglePlay` / `animate` — the play/pause flag and the timer callback of
  `_toggle_play` / `_animate` (source lines 192-205).
-/

namespace PidDemo

/-- Loop-local state of one simulation run: position `x`, velocity `v`,
accumulated `integral`, and `previous_error`, all initialised to `0`. -/
structure LoopState where
  x : ℚ
  v : ℚ
  integral : ℚ
  previous_error : ℚ
  deriving Repr, DecidableEq

/-- Initial loop state of `simulate_pid_response`: `x = 0`, `v = 0`,
`integral = 0`, `previous_error = 0` (source lines 84-87). -/
def initLoopState : LoopState := ⟨0, 0, 0, 0⟩

/-- Values appended to the three result lists in one loop iteration:
`values.append(x)`, `errors.append(error)`, `integrals.append(integral)`
(source lines 103-105). -/
structure StepOut where
  value : ℚ
  error : ℚ
  integral : ℚ
  deriving Repr, DecidableEq

/-- One iteration of the loop body of `simulate_pid_response`
(source lines 90-106), in source order: error, integral accumulation,
backward-difference derivative, control output `u`, explicit-Euler plant
update `dx = v`, `dv = -x - 0.1*v + u`, `x += dx*dt`, `v += dv*dt`, then
the appended record and `previous_error = error`. -/
def pidStep (Kp Ki Kd setpoint dt : ℚ) (s : LoopState) : LoopState × StepOut :=
  let error := setpoint - s.x
  let integral := s.integral + error * dt
  let derivative := (error - s.previous_error) / dt
  let u := Kp * error + Ki * integral + Kd * derivative
  let dx := s.v
  let dv := -s.x - (1/10) * s.v + u
  let x := s.x + dx * dt
  let v := s.v + dv * dt
  (⟨x, v, integral, error⟩, ⟨x, error, integral⟩)

/-- State transition of one loop iteration (the mutation of `x`, `v`,
`integral`, `previous_error` performed by the loop body). -/
def stepFn (Kp Ki Kd setpoint dt : ℚ) (s : LoopState) : LoopState :=
  (pidStep Kp Ki Kd setpoint dt s).1

/-- Loop state after `n` iterations of the simulation loop, starting from
`initLoopState`. -/
def iterState (Kp Ki Kd setpoint dt : ℚ) (n : ℕ) : LoopState :=
  (stepFn Kp Ki Kd setpoint dt)^[n] initLoopState

/-- The simulation loop `for _ in range(len(t))` (source lines 90-106):
runs `n` iterations from state `s` and returns the final state together
with the list of appended records, in append order. -/
def runSteps (Kp Ki Kd setpoint dt : ℚ) (s : LoopState) : ℕ → LoopState × List StepOut
  | 0 => (s, [])
  | n + 1 =>
    let step := pidStep Kp Ki Kd setpoint dt s
    let rest := runSteps Kp Ki Kd setpoint dt step.1 n
    (rest.1, step.2 :: rest.2)

/-- Embedding of `np.arange(0, stop, step)` (source line 83): with step `0`
NumPy raises `ZeroDivisionError` (modelled as `none`); otherwise the result
has length `max 0 ⌈stop / step⌉` and entry `i` equal to `i * step`. -/
def arange (stop step : ℚ) : Option (List ℚ) :=
  if step = 0 then none
  else some ((List.range (⌈stop / step⌉).toNat).map (fun i : ℕ => (i : ℚ) * step))

/-- Instance state of `PIDResponseGraph` used by `simulate_pid_response`:
the controller parameters it reads (`self._setpoint`, `self._Kp`,
`self._Ki`, `self._Kd`) and the trace fields it overwrites
(`self._t`, `self._values`, `self._errors`, `self._integrals`). -/
structure ObjState where
  setpoint : ℚ
  Kp : ℚ
  Ki : ℚ
  Kd : ℚ
  t : List ℚ
  values : List ℚ
  errors : List ℚ
  integrals : List ℚ
  deriving Repr, DecidableEq

/-- Object state with given parameters and empty trace fields, as after
`__init__` sets the lists to `[]` (source lines 9-19). -/
def emptyObj (setpoint Kp Ki Kd : ℚ) : ObjState :=
  ⟨setpoint, Kp, Ki, Kd, [], [], [], []⟩

/-- Embedding of `simulate_pid_response(self, duration, dt)`
(source lines 82-111): build `t = np.arange(0, duration, dt)`, run the
loop `len(t)` times from the zero-initialised loop state, and store the
four resulting sequences into the instance state. `none` models the
`ZeroDivisionError` that `np.arange` raises when `dt == 0`. -/
def simulate_pid_response (o : ObjState) (duration dt : ℚ) : Option ObjState :=
  (arange duration dt).map (fun t =>
    let run := runSteps o.Kp o.Ki o.Kd o.setpoint dt initLoopState t.length
    { o with
      t := t
      values := run.2.map StepOut.value
      errors := run.2.map StepOut.error
      integrals := run.2.map StepOut.integral })

/-- The four trace fields of the instance state, as one tuple. -/
def traceOf (o : ObjState) : List ℚ × List ℚ × List ℚ × List ℚ :=
  (o.t, o.values, o.errors, o.integrals)

/-- Python `int()` applied to a rational: truncation toward zero. -/
def ratTrunc (q : ℚ) : ℤ :=
  if 0 ≤ q then ⌊q⌋ else ⌈q⌉

/-- Embedding of the index computation of `_on_time_change`
(source lines 185-190): `idx = int(val / (t[1] - t[0]))` then
`idx = min(max(0, idx), len(t) - 1)`. Reading `t[1]` (and `t[0]`) raises
`IndexError` when the trace has fewer than two samples, modelled as
`none`. -/
def on_time_change_idx (t : List ℚ) (val : ℚ) : Option ℤ :=
  if 2 ≤ t.length then
    some (min (max 0 (ratTrunc (val / (t.getD 1 0 - t.getD 0 0)))) ((t.length : ℤ) - 1))
  else none

/-- Playback state of the UI: `_is_playing`, `_frame_idx`, and the time
slider value that `_animate` writes (the query time of the lookup). -/
structure PlayerState where
  is_playing : Bool
  frame_idx : ℕ
  slider_time : ℚ
  deriving Repr, DecidableEq

/-- Embedding of `_toggle_play` (source lines 192-194): the play/pause
button flips `_is_playing`. -/
def togglePlay (s : PlayerState) : PlayerState :=
  { s with is_playing := !s.is_playing }

/-- Embedding of `_animate` (source lines 196-205): when playing and the
frame index is below `len(t) - 1`, set the slider to `t[idx]` and advance
the frame index by 10; when playing at or past `len(t) - 1`, stop and
reset the frame index to 0; when stopped, do nothing. -/
def animate (t : List ℚ) (s : PlayerState) : PlayerState :=
  if s.is_playing then
    if s.frame_idx < t.length - 1 then
      { s with slider_time := t.getD s.frame_idx 0, frame_idx := s.frame_idx + 10 }
    else
      { s with is_playing := false, frame_idx := 0 }
  else s

/-! ### Structural lemmas about the simulation loop -/

/-- Closed form of the loop: after `n` iterations the state is the `n`-fold
iterate of the step function, and record `i` of the trace comes from the
state after `i` iterations. -/
theorem runSteps_eq (Kp Ki Kd setpoint dt : ℚ) :
    ∀ (n : ℕ) (s : LoopState),
      runSteps Kp Ki Kd setpoint dt s n =
        ((stepFn Kp Ki Kd setpoint dt)^[n] s,
          (List.range n).map
            (fun i => (pidStep Kp Ki Kd setpoint dt ((stepFn Kp Ki Kd setpoint dt)^[i] s)).2))
  | 0, s => by simp [runSteps]
  | n + 1, s => by
    have ih := runSteps_eq Kp Ki Kd setpoint dt n (pidStep Kp Ki Kd setpoint dt s).1
    simp only [runSteps, ih]
    refine Prod.ext ?_ ?_
    · show (stepFn Kp Ki Kd setpoint dt)^[n] (stepFn Kp Ki Kd setpoint dt s) = _
      rw [← Function.iterate_succ_apply]
    · simp [List.range_succ_eq_map, List.map_map, Function.comp,
        Function.iterate_succ_apply, stepFn]

/-- Closed form of `simulate_pid_response` for any nonzero step `dt`. -/
theorem simulate_eq (o : ObjState) (duration dt : ℚ) (hdt : dt ≠ 0) :
    simulate_pid_response o duration dt =
      some { o with
        t := (List.range (⌈duration / dt⌉).toNat).map (fun i : ℕ => (i : ℚ) * dt)
        values := (List.range (⌈duration / dt⌉).toNat).map
          (fun i =>
            (pidStep o.Kp o.Ki o.Kd o.setpoint dt (iterState o.Kp o.Ki o.Kd o.setpoint dt i)).2.value)
        errors := (List.range (⌈duration / dt⌉).toNat).map
          (fun i =>
            (pidStep o.Kp o.Ki o.Kd o.setpoint dt (iterState o.Kp o.Ki o.Kd o.setpoint dt i)).2.error)
        integrals := (List.range (⌈duration / dt⌉).toNat).map
          (fun i =>
            (pidStep o.Kp o.Ki o.Kd o.setpoint dt (iterState o.Kp o.Ki o.Kd o.setpoint dt i)).2.integral) } := by
  simp only [simulate_pid_response, arange, hdt, if_false, ite_false, if_neg,
    Option.map_some, Option.map_some', List.length_map, List.length_range, runSteps_eq,
    iterState, List.map_map, Function.comp, Function.comp_def]

/-- Indexing a mapped range with `getD`. -/
theorem getD_range_map (f : ℕ → ℚ) (N i : ℕ) (h : i < N) :
    ((List.range N).map f).getD i 0 = f i := by
  have hl : i < ((List.range N).map f).length := by simpa using h
  rw [List.getD_eq_getElem _ _ hl]
  simp

/-- Unfolding one loop iteration of the state. -/
theorem iterState_succ (Kp Ki Kd setpoint dt : ℚ) (i : ℕ) :
    iterState Kp Ki Kd setpoint dt (i + 1) =
      stepFn Kp Ki Kd setpoint dt (iterState Kp Ki Kd setpoint dt i) := by
  simp [iterState, Function.iterate_succ_apply']

/-- The state transition written out componentwise: the loop body updates
`x` with the pre-update velocity, `v` with the control output, `integral`
with the current error, and `previous_error` with the current error. -/
theorem stepFn_def (Kp Ki Kd setpoint dt : ℚ) (s : LoopState) :
    stepFn Kp Ki Kd setpoint dt s =
      ⟨s.x + s.v * dt,
       s.v + (-s.x - (1/10) * s.v +
         (Kp * (setpoint - s.x) + Ki * (s.integral + (setpoint - s.x) * dt) +
           Kd * ((setpoint - s.x - s.previous_error) / dt))) * dt,
       s.integral + (setpoint - s.x) * dt,
       setpoint - s.x⟩ := rfl

/-- With all three gains zero the loop state keeps `x = 0`, `v = 0`, and
accumulates `integral = setpoint * i * dt`. -/
theorem iterState_zero_gains (setpoint dt : ℚ) :
    ∀ i : ℕ,
      (iterState 0 0 0 setpoint dt i).x = 0 ∧ (iterState 0 0 0 setpoint dt i).v = 0 ∧
        (iterState 0 0 0 setpoint dt i).integral = setpoint * i * dt
  | 0 => by simp [iterState, initLoopState]
  | i + 1 => by
    obtain ⟨hx, hv, hI⟩ := iterState_zero_gains setpoint dt i
    rw [iterState_succ, stepFn_def]
    refine ⟨?_, ?_, ?_⟩
    · simp [hx, hv]
    · simp [hx, hv]
    · simp only [hx, hI]
      push_cast
      ring

/-- The accumulated integral after `i` iterations is the sum of the errors
seen so far, each weighted by `dt`. -/
theorem iterState_integral (Kp Ki Kd setpoint dt : ℚ) :
    ∀ i : ℕ,
      (iterState Kp Ki Kd setpoint dt i).integral =
        ∑ j in Finset.range i, (setpoint - (iterState Kp Ki Kd setpoint dt j).x) * dt
  | 0 => by simp [iterState, initLoopState]
  | i + 1 => by
    rw [iterState_succ, stepFn_def, Finset.sum_range_succ,
      ← iterState_integral Kp Ki Kd setpoint dt i]

/-- The record appended at one iteration, written out componentwise:
the position after the update, and the error and integral computed before
the update. -/
theorem pidStep_out (Kp Ki Kd setpoint dt : ℚ) (s : LoopState) :
    (pidStep Kp Ki Kd setpoint dt s).2 =
      ⟨s.x + s.v * dt, setpoint - s.x, s.integral + (setpoint - s.x) * dt⟩ := rfl

/-- The four trace fields of a successful run, as mapped ranges. -/
theorem run_fields (o : ObjState) (duration dt : ℚ) (o2 : ObjState) (hdt : dt ≠ 0)
    (hrun : simulate_pid_response o duration dt = some o2) :
    o2.t = (List.range (⌈duration / dt⌉).toNat).map (fun i : ℕ => (i : ℚ) * dt) ∧
    o2.values = (List.range (⌈duration / dt⌉).toNat).map
      (fun i =>
        (pidStep o.Kp o.Ki o.Kd o.setpoint dt (iterState o.Kp o.Ki o.Kd o.setpoint dt i)).2.value) ∧
    o2.errors = (List.range (⌈duration / dt⌉).toNat).map
      (fun i =>
        (pidStep o.Kp o.Ki o.Kd o.setpoint dt (iterState o.Kp o.Ki o.Kd o.setpoint dt i)).2.error) ∧
    o2.integrals = (List.range (⌈duration / dt⌉).toNat).map
      (fun i =>
        (pidStep o.Kp o.Ki o.Kd o.setpoint dt (iterState o.Kp o.Ki o.Kd o.setpoint dt i)).2.integral) := by
  rw [simulate_eq o duration dt hdt] at hrun
  obtain rfl := Option.some_inj.mp hrun
  exact ⟨rfl, rfl, rfl, rfl⟩

/-- A truncation toward zero and a floor agree once clamped below by 0. -/
theorem max_zero_ratTrunc (q : ℚ) : max 0 (ratTrunc q) = max 0 ⌊q⌋ := by
  unfold ratTrunc
  split
  · rfl
  · rename_i h
    have hq : q ≤ 0 := le_of_lt (not_le.mp h)
    have h1 : ⌈q⌉ ≤ 0 := by
      rw [Int.ceil_le]
      exact_mod_cast hq
    have h2 : ⌊q⌋ ≤ 0 := Int.floor_nonpos hq
    rw [max_eq_left h1, max_eq_left h2]

/-- Result of the run of the C4 literal scenario. -/
def exampleRunResult : ObjState :=
  ⟨1, 1, 0, 0, [0, 1], [0, 1], [1, 1], [1, 2]⟩

/-- Concrete two-step run: setpoint 1, `Kp = 1`, `Ki = Kd = 0`,
`duration = 2`, `dt = 1`. -/
theorem simulate_example :
    simulate_pid_response (emptyObj 1 1 0 0) 2 1 = some exampleRunResult := by
  have h2 : (⌈(2:ℚ)/1⌉).toNat = 2 := by
    have h : (⌈(2:ℚ)/1⌉) = 2 := by norm_num
    rw [h]; rfl
  simp only [simulate_pid_response, arange, emptyObj, h2, one_ne_zero, if_neg, if_false,
    Option.map_some]
  simp only [List.range_succ, List.range_zero, List.nil_append, List.cons_append,
    List.map_cons, List.map_nil, List.length_cons, List.length_nil]
  norm_num [exampleRunResult, runSteps, pidStep, initLoopState, ObjState.mk.injEq,
    StepOut.mk.injEq]

/-! ### Claims -/

/-- C4: with dt = 1, duration = 2, setpoint = 1, Kp = 1, Ki = Kd = 0, starting
from x = 0 and v = 0, the run returns exactly t = [0, 1], value = [0, 1],
error = [1, 1], integral = [1, 2]; step 0 leaves x = 0 with v = 1, and step 1
yields x = 1 and v = 19/10. -/
theorem claim_literal_scenario :
    simulate_pid_response (emptyObj 1 1 0 0) 2 1 = some exampleRunResult ∧
    exampleRunResult.t = [0, 1] ∧ exampleRunResult.values = [0, 1] ∧
    exampleRunResult.errors = [1, 1] ∧ exampleRunResult.integrals = [1, 2] ∧
    iterState 1 0 0 1 1 1 = ⟨0, 1, 1, 1⟩ ∧
    iterState 1 0 0 1 1 2 = ⟨1, 19/10, 2, 1⟩ := by
  refine ⟨simulate_example, rfl, rfl, rfl, rfl, ?_, ?_⟩
  · norm_num [iterState, Function.iterate_succ, stepFn, pidStep, initLoopState,
      LoopState.mk.injEq]
  · norm_num [iterState, Function.iterate_succ, stepFn, pidStep, initLoopState,
      LoopState.mk.injEq]

/-- C2: for duration > 0 and dt > 0 a run returns four sequences of equal
length N with (N : ℤ) = ⌈duration / dt⌉, and t[i] = i * dt exactly for every
index i < N. -/
theorem claim_length_invariant (o : ObjState) (duration dt : ℚ) (o2 : ObjState)
    (hdt : 0 < dt) (hdur : 0 < duration)
    (hrun : simulate_pid_response o duration dt = some o2) :
    (o2.t.length = o2.values.length ∧ o2.t.length = o2.errors.length ∧
      o2.t.length = o2.integrals.length ∧ (o2.t.length : ℤ) = ⌈duration / dt⌉) ∧
    ∀ i : ℕ, i < o2.t.length → o2.t.getD i 0 = (i : ℚ) * dt := by
  obtain ⟨ht, hv, he, hI⟩ := run_fields o duration dt o2 (ne_of_gt hdt) hrun
  have hceil : (0:ℤ) ≤ ⌈duration / dt⌉ := le_of_lt (Int.ceil_pos.mpr (div_pos hdur hdt))
  refine ⟨⟨?_, ?_, ?_, ?_⟩, ?_⟩
  · rw [ht, hv]; simp
  · rw [ht, he]; simp
  · rw [ht, hI]; simp
  · rw [ht]; simp [Int.toNat_of_nonneg hceil]
  · intro i hi
    rw [ht] at hi ⊢
    simp only [List.length_map, List.length_range] at hi
    exact getD_range_map _ _ _ hi

/-- Witness for C2: the concrete two-step run. -/
theorem claim_length_invariant_witness :
    exampleRunResult.t.length = exampleRunResult.values.length ∧
    (exampleRunResult.t.length : ℤ) = ⌈(2:ℚ) / 1⌉ ∧
    exampleRunResult.t.getD 1 0 = (1 : ℚ) * 1 := by
  have h := claim_length_invariant (emptyObj 1 1 0 0) 2 1 exampleRunResult
    (by norm_num) (by norm_num) simulate_example
  exact ⟨h.1.1, h.1.2.2.2, h.2 1 (by decide)⟩

/-- C1: at every step i of a run with dt > 0, the trace records the error
`setpoint - x` and the integral `integral + error * dt` computed from the
state before the plant update, the position recorded in `value[i]` is the
position after the update, and the next loop state is exactly the result of
the ordered assignments: the derivative uses the previous step's error, the
control output u uses the already-accumulated integral, `x` advances by the
pre-update velocity, `v` by `(-x - 0.1 v + u) * dt`, and `previous_error`
becomes this step's error only after the record is appended. -/
theorem claim_step_order (o : ObjState) (duration dt : ℚ) (o2 : ObjState)
    (hdt : 0 < dt) (hrun : simulate_pid_response o duration dt = some o2)
    (i : ℕ) (hi : i < o2.t.length) :
    o2.errors.getD i 0 = o.setpoint - (iterState o.Kp o.Ki o.Kd o.setpoint dt i).x ∧
    o2.integrals.getD i 0 =
      (iterState o.Kp o.Ki o.Kd o.setpoint dt i).integral +
        (o.setpoint - (iterState o.Kp o.Ki o.Kd o.setpoint dt i).x) * dt ∧
    o2.values.getD i 0 = (iterState o.Kp o.Ki o.Kd o.setpoint dt (i + 1)).x ∧
    iterState o.Kp o.Ki o.Kd o.setpoint dt (i + 1) =
      ⟨(iterState o.Kp o.Ki o.Kd o.setpoint dt i).x +
         (iterState o.Kp o.Ki o.Kd o.setpoint dt i).v * dt,
       (iterState o.Kp o.Ki o.Kd o.setpoint dt i).v +
         (-(iterState o.Kp o.Ki o.Kd o.setpoint dt i).x -
            (1/10) * (iterState o.Kp o.Ki o.Kd o.setpoint dt i).v +
            (o.Kp * (o.setpoint - (iterState o.Kp o.Ki o.Kd o.setpoint dt i).x) +
             o.Ki * ((iterState o.Kp o.Ki o.Kd o.setpoint dt i).integral +
               (o.setpoint - (iterState o.Kp o.Ki o.Kd o.setpoint dt i).x) * dt) +
             o.Kd * ((o.setpoint - (iterState o.Kp o.Ki o.Kd o.setpoint dt i).x -
               (iterState o.Kp o.Ki o.Kd o.setpoint dt i).previous_error) / dt))) * dt,
       (iterState o.Kp o.Ki o.Kd o.setpoint dt i).integral +
         (o.setpoint - (iterState o.Kp o.Ki o.Kd o.setpoint dt i).x) * dt,
       o.setpoint - (iterState o.Kp o.Ki o.Kd o.setpoint dt i).x⟩ := by
  obtain ⟨ht, hv, he, hI⟩ := run_fields o duration dt o2 (ne_of_gt hdt) hrun
  rw [ht] at hi
  simp only [List.length_map, List.length_range] at hi
  refine ⟨?_, ?_, ?_, ?_⟩
  · rw [he, getD_range_map _ _ _ hi, pidStep_out]
  · rw [hI, getD_range_map _ _ _ hi, pidStep_out]
  · rw [hv, getD_range_map _ _ _ hi, pidStep_out, iterState_succ, stepFn_def]
  · rw [iterState_succ, stepFn_def]

/-- Witness for C1: step 1 of the concrete two-step run. -/
theorem claim_step_order_witness :
    exampleRunResult.errors.getD 1 0 = 1 - (iterState 1 0 0 1 1 1).x ∧
    exampleRunResult.values.getD 1 0 = (iterState 1 0 0 1 1 2).x := by
  have h := claim_step_order (emptyObj 1 1 0 0) 2 1 exampleRunResult
    (by norm_num) simulate_example 1 (by decide)
  exact ⟨h.1, h.2.2.1⟩

/-- Result of a zero-gain run with setpoint 5, duration 2, dt 1. -/
def zeroGainRunResult : ObjState :=
  ⟨5, 0, 0, 0, [0, 1], [0, 0], [5, 5], [5, 10]⟩

/-- Concrete two-step run with all gains zero and setpoint 5. -/
theorem simulate_zero_gain_example :
    simulate_pid_response (emptyObj 5 0 0 0) 2 1 = some zeroGainRunResult := by
  have h2 : (⌈(2:ℚ)/1⌉).toNat = 2 := by
    have h : (⌈(2:ℚ)/1⌉) = 2 := by norm_num
    rw [h]; rfl
  simp only [simulate_pid_response, arange, emptyObj, h2, one_ne_zero, if_neg, if_false,
    Option.map_some]
  simp only [List.range_succ, List.range_zero, List.nil_append, List.cons_append,
    List.map_cons, List.map_nil, List.length_cons, List.length_nil]
  norm_num [zeroGainRunResult, runSteps, pidStep, initLoopState, ObjState.mk.injEq,
    StepOut.mk.injEq]

/-- C5: with Kp = Ki = Kd = 0, duration > 0 and dt > 0, every recorded
position is 0, every recorded error is the setpoint, and the recorded
integral at index i is setpoint * (i + 1) * dt. -/
theorem claim_zero_gain_stillness (o : ObjState) (duration dt : ℚ) (o2 : ObjState)
    (hKp : o.Kp = 0) (hKi : o.Ki = 0) (hKd : o.Kd = 0)
    (hdt : 0 < dt) (_hdur : 0 < duration)
    (hrun : simulate_pid_response o duration dt = some o2)
    (i : ℕ) (hi : i < o2.values.length) :
    o2.values.getD i 0 = 0 ∧ o2.errors.getD i 0 = o.setpoint ∧
      o2.integrals.getD i 0 = o.setpoint * (i + 1) * dt := by
  obtain ⟨ht, hv, he, hI⟩ := run_fields o duration dt o2 (ne_of_gt hdt) hrun
  rw [hv] at hi
  simp only [List.length_map, List.length_range] at hi
  rw [hKp, hKi, hKd] at hv he hI
  obtain ⟨hx, hvv, hII⟩ := iterState_zero_gains o.setpoint dt i
  refine ⟨?_, ?_, ?_⟩
  · rw [hv, getD_range_map _ _ _ hi, pidStep_out]
    simp [hx, hvv]
  · rw [he, getD_range_map _ _ _ hi, pidStep_out]
    simp [hx]
  · rw [hI, getD_range_map _ _ _ hi, pidStep_out]
    simp only [hx, hII]
    ring

/-- Witness for C5: index 1 of the concrete zero-gain run. -/
theorem claim_zero_gain_stillness_witness :
    zeroGainRunResult.values.getD 1 0 = 0 ∧
    zeroGainRunResult.errors.getD 1 0 = 5 ∧
    zeroGainRunResult.integrals.getD 1 0 = 5 * (1 + 1) * 1 := by
  have h := claim_zero_gain_stillness (emptyObj 5 0 0 0) 2 1 zeroGainRunResult
    rfl rfl rfl (by norm_num) (by norm_num) simulate_zero_gain_example 1 (by decide)
  refine ⟨h.1, h.2.1, ?_⟩
  have h3 := h.2.2
  norm_num [emptyObj] at h3 ⊢
  exact h3

/-- C6: the recorded integral at index i is the left-to-right accumulated
sum of error[j] * dt for j = 0 .. i, using the current step's error. -/
theorem claim_integral_sum (o : ObjState) (duration dt : ℚ) (o2 : ObjState)
    (hdt : 0 < dt) (hrun : simulate_pid_response o duration dt = some o2)
    (i : ℕ) (hi : i < o2.integrals.length) :
    o2.integrals.getD i 0 = ∑ j in Finset.range (i + 1), o2.errors.getD j 0 * dt := by
  obtain ⟨ht, hv, he, hI⟩ := run_fields o duration dt o2 (ne_of_gt hdt) hrun
  rw [hI] at hi
  simp only [List.length_map, List.length_range] at hi
  have herr : ∀ j ∈ Finset.range (i + 1),
      o2.errors.getD j 0 * dt =
        (o.setpoint - (iterState o.Kp o.Ki o.Kd o.setpoint dt j).x) * dt := by
    intro j hj
    have hjN : j < (⌈duration / dt⌉).toNat :=
      lt_of_lt_of_le (Finset.mem_range.mp hj) (Nat.succ_le_of_lt hi)
    rw [he, getD_range_map _ _ _ hjN, pidStep_out]
  rw [hI, getD_range_map _ _ _ hi, pidStep_out, Finset.sum_congr rfl herr,
    Finset.sum_range_succ, ← iterState_integral]

/-- Witness for C6: index 1 of the concrete two-step run. -/
theorem claim_integral_sum_witness :
    exampleRunResult.integrals.getD 1 0 =
      ∑ j in Finset.range 2, exampleRunResult.errors.getD j 0 * 1 :=
  claim_integral_sum (emptyObj 1 1 0 0) 2 1 exampleRunResult
    (by norm_num) simulate_example 1 (by decide)

/-- A run whose sample count is nonpositive stores four empty sequences. -/
theorem simulate_empty (o : ObjState) (duration dt : ℚ) (hdt : dt ≠ 0)
    (hN : ⌈duration / dt⌉ ≤ 0) :
    simulate_pid_response o duration dt =
      some { o with t := [], values := [], errors := [], integrals := [] } := by
  rw [simulate_eq o duration dt hdt]
  simp [Int.toNat_of_nonpos hN]

/-- Counterexample to C3 as stated: with duration = 0 and dt = 1/100, and
with duration = 10 and dt = -1, the code raises nothing and returns an
object holding a (zero-length) trace instead of failing with
`InvalidConfig`. -/
theorem claim_invalid_config_counterexample :
    simulate_pid_response (emptyObj 1 1 0 0) 0 (1/100) = some (emptyObj 1 1 0 0) ∧
    simulate_pid_response (emptyObj 1 1 0 0) 10 (-1) = some (emptyObj 1 1 0 0) := by
  constructor
  · rw [simulate_empty (emptyObj 1 1 0 0) 0 (1/100) (by norm_num) (by norm_num)]
    rfl
  · rw [simulate_empty (emptyObj 1 1 0 0) 10 (-1) (by norm_num) ?_]
    · rfl
    · have h : (⌈(10:ℚ)/(-1)⌉) = -10 := by
        rw [Int.ceil_eq_iff]
        norm_num
      omega

/-- C3 amended: the code performs no configuration validation. With dt = 0
the call fails with the `ZeroDivisionError` of `np.arange` (not an
`InvalidConfig` error); with any dt ≠ 0 it succeeds and returns a trace of
length max(0, ⌈duration/dt⌉): empty when dt > 0 and duration ≤ 0 and when
dt < 0 and duration ≥ 0, and nonempty when dt > 0 and duration > 0. -/
theorem claim_no_invalid_config (o : ObjState) (duration dt : ℚ) :
    (dt = 0 → simulate_pid_response o duration dt = none) ∧
    (dt ≠ 0 → ∃ o2, simulate_pid_response o duration dt = some o2 ∧
      (o2.t.length : ℤ) = max 0 ⌈duration / dt⌉) ∧
    (0 < dt → duration ≤ 0 →
      simulate_pid_response o duration dt =
        some { o with t := [], values := [], errors := [], integrals := [] }) ∧
    (dt < 0 → 0 ≤ duration →
      simulate_pid_response o duration dt =
        some { o with t := [], values := [], errors := [], integrals := [] }) ∧
    (0 < dt → 0 < duration → ∃ o2, simulate_pid_response o duration dt = some o2 ∧
      o2.t ≠ []) := by
  refine ⟨?_, ?_, ?_, ?_, ?_⟩
  · intro h
    simp [simulate_pid_response, arange, h]
  · intro hdt
    refine ⟨_, simulate_eq o duration dt hdt, ?_⟩
    simp only [List.length_map, List.length_range]
    rw [Int.toNat_eq_max, max_comm]
  · intro hdt hdur
    refine simulate_empty o duration dt (ne_of_gt hdt) ?_
    rw [Int.ceil_le]
    push_cast
    exact div_nonpos_iff.mpr (Or.inr ⟨hdur, hdt.le⟩)
  · intro hdt hdur
    refine simulate_empty o duration dt (ne_of_lt hdt) ?_
    rw [Int.ceil_le]
    push_cast
    exact div_nonpos_iff.mpr (Or.inl ⟨hdur, hdt.le⟩)
  · intro hdt hdur
    refine ⟨_, simulate_eq o duration dt (ne_of_gt hdt), ?_⟩
    have hpos : 0 < ⌈duration / dt⌉ := Int.ceil_pos.mpr (div_pos hdur hdt)
    have : 0 < (⌈duration / dt⌉).toNat := by omega
    intro hnil
    have := congrArg List.length hnil
    simp at this
    omega

/-- Witness for C3 amended: dt = 0 fails, duration = 0 yields an empty
trace, and a positive configuration yields a nonempty trace. -/
theorem claim_no_invalid_config_witness :
    simulate_pid_response (emptyObj 1 1 0 0) 1 0 = none ∧
    simulate_pid_response (emptyObj 1 1 0 0) 0 (1/100) =
      some { emptyObj 1 1 0 0 with t := [], values := [], errors := [], integrals := [] } := by
  have h1 := claim_no_invalid_config (emptyObj 1 1 0 0) 1 0
  have h2 := claim_no_invalid_config (emptyObj 1 1 0 0) 0 (1/100)
  exact ⟨h1.1 rfl, h2.2.2.1 (by norm_num) le_rfl⟩

/-- C10: with dt > 0 and duration ≤ 0 the call raises nothing and stores
four empty sequences, silently replacing whatever trace the object held. -/
theorem claim_empty_trace_nonpositive_duration (o : ObjState) (duration dt : ℚ)
    (hdt : 0 < dt) (hdur : duration ≤ 0) :
    simulate_pid_response o duration dt =
      some { o with t := [], values := [], errors := [], integrals := [] } := by
  refine simulate_empty o duration dt (ne_of_gt hdt) ?_
  rw [Int.ceil_le]
  push_cast
  exact div_nonpos_iff.mpr (Or.inr ⟨hdur, hdt.le⟩)

/-- An object state still holding the trace of an earlier run. -/
def staleObj : ObjState :=
  ⟨1, 4, 0, 0, [0], [3], [2], [1]⟩

/-- Witness for C10: a run with duration = -1 on an object holding an old
trace replaces it with four empty sequences. -/
theorem claim_empty_trace_nonpositive_duration_witness :
    simulate_pid_response staleObj (-1) 1 = some ⟨1, 4, 0, 0, [], [], [], []⟩ :=
  claim_empty_trace_nonpositive_duration staleObj (-1) 1 (by norm_num) (by norm_num)

/-- C7: the trace produced by a call depends only on the parameters it
reads (setpoint and gains) and the arguments (duration, dt): two object
states that agree on those, whatever traces they hold from earlier calls,
yield identical stored traces; in particular two identical calls yield
identical traces, and the loop variables are re-initialised every run. -/
theorem claim_stateless (o1 o2 : ObjState) (duration dt : ℚ)
    (hsp : o1.setpoint = o2.setpoint) (hKp : o1.Kp = o2.Kp)
    (hKi : o1.Ki = o2.Ki) (hKd : o1.Kd = o2.Kd) :
    Option.map traceOf (simulate_pid_response o1 duration dt) =
      Option.map traceOf (simulate_pid_response o2 duration dt) := by
  by_cases hdt : dt = 0
  · simp [simulate_pid_response, arange, hdt]
  · rw [simulate_eq o1 duration dt hdt, simulate_eq o2 duration dt hdt]
    simp [traceOf, hsp, hKp, hKi, hKd]

/-- Witness for C7: an object holding an old trace and a fresh object with
the same parameters produce the same trace. -/
theorem claim_stateless_witness :
    Option.map traceOf (simulate_pid_response staleObj 2 1) =
      Option.map traceOf (simulate_pid_response (emptyObj 1 4 0 0) 2 1) :=
  claim_stateless staleObj (emptyObj 1 4 0 0) 2 1 rfl rfl rfl rfl

/-- Result of the run with setpoint 1, Kp = 1, duration = 1, dt = 2: a
single-sample trace. -/
def oneSampleRunResult : ObjState :=
  ⟨1, 1, 0, 0, [0], [0], [1], [2]⟩

/-- Concrete one-step run giving a trace of length 1. -/
theorem simulate_one_sample :
    simulate_pid_response (emptyObj 1 1 0 0) 1 2 = some oneSampleRunResult := by
  have h1 : (⌈(1:ℚ)/2⌉).toNat = 1 := by
    have h : (⌈(1:ℚ)/2⌉) = 1 := by
      rw [Int.ceil_eq_iff]
      norm_num
    rw [h]; rfl
  simp only [simulate_pid_response, arange, emptyObj, h1, if_neg, if_false,
    Option.map_some]
  norm_num [oneSampleRunResult, List.range_succ, runSteps, pidStep, initLoopState,
    ObjState.mk.injEq, StepOut.mk.injEq]

/-- Counterexample to C8 as stated: the run with duration = 1, dt = 2
produces a trace of length N = 1, and on it the lookup raises `IndexError`
while reading `t[1]` instead of yielding the clamped index 0. -/
theorem claim_sample_lookup_counterexample :
    simulate_pid_response (emptyObj 1 1 0 0) 1 2 = some oneSampleRunResult ∧
    oneSampleRunResult.t.length = 1 ∧
    on_time_change_idx oneSampleRunResult.t 0 = none ∧
    on_time_change_idx oneSampleRunResult.t 0 ≠ some 0 := by
  refine ⟨simulate_one_sample, rfl, rfl, ?_⟩
  intro h
  simp [on_time_change_idx, oneSampleRunResult] at h

/-- C8 amended: for every produced trace with at least two samples (the
code reads `t[1] - t[0]`, so shorter traces raise `IndexError`), the lookup
yields `clamp(⌊τ / dt⌋, 0, N - 1)`; in particular any τ < 0 yields index 0
and any τ ≥ duration yields index N - 1. -/
theorem claim_sample_lookup (o : ObjState) (duration dt τ : ℚ) (o2 : ObjState)
    (hdt : 0 < dt) (hrun : simulate_pid_response o duration dt = some o2)
    (hN : 2 ≤ o2.t.length) :
    on_time_change_idx o2.t τ = some (min (max 0 ⌊τ / dt⌋) ((o2.t.length : ℤ) - 1)) ∧
    (τ < 0 → on_time_change_idx o2.t τ = some 0) ∧
    (duration ≤ τ → on_time_change_idx o2.t τ = some ((o2.t.length : ℤ) - 1)) := by
  obtain ⟨ht, -, -, -⟩ := run_fields o duration dt o2 (ne_of_gt hdt) hrun
  have hlen : o2.t.length = (⌈duration / dt⌉).toNat := by rw [ht]; simp
  have hN2 : 2 ≤ (⌈duration / dt⌉).toNat := hlen ▸ hN
  have ht1 : o2.t.getD 1 0 = (1 : ℚ) * dt := by
    rw [ht]
    have := getD_range_map (fun i : ℕ => (i : ℚ) * dt) ((⌈duration / dt⌉).toNat) 1 (by omega)
    simpa using this
  have ht0 : o2.t.getD 0 0 = 0 := by
    rw [ht]
    have := getD_range_map (fun i : ℕ => (i : ℚ) * dt) ((⌈duration / dt⌉).toNat) 0 (by omega)
    simpa using this
  have hdiff : o2.t.getD 1 0 - o2.t.getD 0 0 = dt := by rw [ht1, ht0]; ring
  have hmain : on_time_change_idx o2.t τ =
      some (min (max 0 ⌊τ / dt⌋) ((o2.t.length : ℤ) - 1)) := by
    unfold on_time_change_idx
    rw [if_pos hN, hdiff, max_zero_ratTrunc]
  have hlen1 : (1 : ℤ) ≤ (o2.t.length : ℤ) - 1 := by
    have : (2 : ℤ) ≤ (o2.t.length : ℤ) := by exact_mod_cast hN
    omega
  refine ⟨hmain, ?_, ?_⟩
  · intro hτ
    rw [hmain]
    have h1 : ⌊τ / dt⌋ ≤ 0 := Int.floor_nonpos (le_of_lt (div_neg_of_neg_of_pos hτ hdt))
    rw [max_eq_left h1, min_eq_left (by omega)]
  · intro hτ
    rw [hmain]
    have hceil : (o2.t.length : ℤ) = ⌈duration / dt⌉ := by
      rw [hlen]
      exact Int.toNat_of_nonneg (by omega)
    have hlt : ((o2.t.length : ℤ) - 1) < ⌈duration / dt⌉ := by omega
    have hq : (((o2.t.length : ℤ) - 1 : ℤ) : ℚ) < duration / dt := Int.lt_ceil.mp (by omega)
    have hq2 : duration / dt ≤ τ / dt := (div_le_div_iff_of_pos_right hdt).mpr hτ
    have hfl : (o2.t.length : ℤ) - 1 ≤ ⌊τ / dt⌋ :=
      Int.le_floor.mpr (le_of_lt (lt_of_lt_of_le hq hq2))
    rw [max_eq_right (by omega), min_eq_right hfl]

/-- Witness for C8 amended: the two-sample trace with τ = 5 ≥ duration and
with τ = -3 < 0. -/
theorem claim_sample_lookup_witness :
    on_time_change_idx exampleRunResult.t 5 = some ((exampleRunResult.t.length : ℤ) - 1) ∧
    on_time_change_idx exampleRunResult.t (-3) = some 0 := by
  have h1 := claim_sample_lookup (emptyObj 1 1 0 0) 2 1 5 exampleRunResult
    (by norm_num) simulate_example (by decide)
  have h2 := claim_sample_lookup (emptyObj 1 1 0 0) 2 1 (-3) exampleRunResult
    (by norm_num) simulate_example (by decide)
  exact ⟨h1.2.2 (by norm_num), h2.2.1 (by norm_num)⟩

/-- C9: the playback mechanism is a two-state machine. The play command
toggles Stopped to Playing and Playing to Stopped (pause); an animation
tick while Playing below the last sample advances the query time and the
frame index, a tick while Playing at or past the last sample stops and
resets the frame index to 0, and a tick while Stopped changes nothing, so
the query time never advances while Stopped. -/
theorem claim_playback (t : List ℚ) (s : PlayerState) :
    (s.is_playing = false → (togglePlay s).is_playing = true) ∧
    (s.is_playing = true → (togglePlay s).is_playing = false) ∧
    (s.is_playing = true → s.frame_idx < t.length - 1 →
      animate t s =
        { s with slider_time := t.getD s.frame_idx 0, frame_idx := s.frame_idx + 10 }) ∧
    (s.is_playing = true → ¬ s.frame_idx < t.length - 1 →
      animate t s = { s with is_playing := false, frame_idx := 0 }) ∧
    (s.is_playing = false → animate t s = s) := by
  refine ⟨?_, ?_, ?_, ?_, ?_⟩
  · intro h; simp [togglePlay, h]
  · intro h; simp [togglePlay, h]
  · intro h h2; simp [animate, h, h2]
  · intro h h2; simp [animate, h, h2]
  · intro h; simp [animate, h]

/-- Witness for C9: the play toggle from Stopped, a tick past the last
sample while Playing, and a tick while Stopped. -/
theorem claim_playback_witness :
    (togglePlay ⟨false, 0, 0⟩).is_playing = true ∧
    animate [0, 1] ⟨true, 5, 0⟩ = ⟨false, 0, 0⟩ ∧
    animate [0, 1] ⟨false, 3, 0⟩ = ⟨false, 3, 0⟩ := by
  have h1 := claim_playback [0, 1] ⟨false, 0, 0⟩
  have h2 := claim_playback [0, 1] ⟨true, 5, 0⟩
  have h3 := claim_playback [0, 1] ⟨false, 3, 0⟩
  exact ⟨h1.1 rfl, h2.2.2.2.1 rfl (by decide), h3.2.2.2.2 rfl⟩

end PidDemo
